import Mathlib

/-!
Verification of the varcode in-frame coding-effect predictor
(`varcode/effects/effect_prediction_coding_in_frame.py`) and the
reference-assembly-name lookup (`varcode/reference_name.py`).

Nucleotide and amino-acid sequences are modelled as `List Char`; Python
slices `s[a:b]` become `pySlice` (drop/take with clamping, which matches
Python clamping semantics for nonnegative indices).  Python `assert`
failures and raised exceptions are modelled by `Option.none`: a predictor
run either returns `some` Effect-Taxonomy value or faults with `none`.
-/

namespace Varcode

/-- Python slice `s[a:b]` for nonnegative `a`, `b`: clamps at the ends. -/
def pySlice (l : List Char) (a b : Nat) : List Char :=
  (l.drop a).take (b - a)

/-- Longest common leading run of two sequences. -/
def lcp : List Char → List Char → List Char
  | x :: xs, y :: ys => if x = y then x :: lcp xs ys else []
  | _, _ => []

/-- Modelled from the spec: the stop-codon set used by the Codon
Translator (`STOP_CODONS` imported from the repository module
`varcode/effects/translate.py`, which is not among the provided source
files).  The standard genetic code has exactly these three stops. -/
def STOP_CODONS : List (List Char) :=
  [['T','A','A'], ['T','A','G'], ['T','G','A']]

/-- Modelled from the spec: the start-codon set used by the Codon
Translator (`START_CODONS` from the missing module
`varcode/effects/translate.py`).  The standard genetic-code table
recognises ATG, CTG and TTG as start codons. -/
def START_CODONS : List (List Char) :=
  [['A','T','G'], ['C','T','G'], ['T','T','G']]

/-- Modelled from the spec: the fixed genetic-code table mapping a codon
to a single-letter residue (standard table; stop codons never reach this
table because translation stops first).  Unknown triplets map to the
conventional unknown residue X. -/
def aaOf (c1 c2 c3 : Char) : Char :=
  match c1, c2, c3 with
  | 'T','T','T' => 'F' | 'T','T','C' => 'F' | 'T','T','A' => 'L' | 'T','T','G' => 'L'
  | 'C','T','T' => 'L' | 'C','T','C' => 'L' | 'C','T','A' => 'L' | 'C','T','G' => 'L'
  | 'A','T','T' => 'I' | 'A','T','C' => 'I' | 'A','T','A' => 'I' | 'A','T','G' => 'M'
  | 'G','T','T' => 'V' | 'G','T','C' => 'V' | 'G','T','A' => 'V' | 'G','T','G' => 'V'
  | 'T','C','T' => 'S' | 'T','C','C' => 'S' | 'T','C','A' => 'S' | 'T','C','G' => 'S'
  | 'C','C','T' => 'P' | 'C','C','C' => 'P' | 'C','C','A' => 'P' | 'C','C','G' => 'P'
  | 'A','C','T' => 'T' | 'A','C','C' => 'T' | 'A','C','A' => 'T' | 'A','C','G' => 'T'
  | 'G','C','T' => 'A' | 'G','C','C' => 'A' | 'G','C','A' => 'A' | 'G','C','G' => 'A'
  | 'T','A','T' => 'Y' | 'T','A','C' => 'Y'
  | 'C','A','T' => 'H' | 'C','A','C' => 'H' | 'C','A','A' => 'Q' | 'C','A','G' => 'Q'
  | 'A','A','T' => 'N' | 'A','A','C' => 'N' | 'A','A','A' => 'K' | 'A','A','G' => 'K'
  | 'G','A','T' => 'D' | 'G','A','C' => 'D' | 'G','A','A' => 'E' | 'G','A','G' => 'E'
  | 'T','G','T' => 'C' | 'T','G','C' => 'C' | 'T','G','G' => 'W'
  | 'C','G','T' => 'R' | 'C','G','C' => 'R' | 'C','G','A' => 'R' | 'C','G','G' => 'R'
  | 'A','G','T' => 'S' | 'A','G','C' => 'S' | 'A','G','A' => 'R' | 'A','G','G' => 'R'
  | 'G','G','T' => 'G' | 'G','G','C' => 'G' | 'G','G','A' => 'G' | 'G','G','G' => 'G'
  | _, _, _ => 'X'

/-- Modelled from the spec: codon-by-codon translation that stops at (and
excludes) the first in-frame stop codon; any trailing chunk shorter than a
codon is dropped. -/
def translateCodons : List Char → List Char
  | c1 :: c2 :: c3 :: rest =>
      if [c1, c2, c3] ∈ STOP_CODONS then []
      else aaOf c1 c2 c3 :: translateCodons rest
  | _ => []

/-- Modelled from the spec: the Codon Translator `translate` from the
missing module `varcode/effects/translate.py`.  When the first codon is
marked as a start codon and belongs to the start-codon set, it is
translated as methionine regardless of its degenerate identity.  (The
missing source raises when `first_codon_is_start` is set and the first
triplet is not a recognised start codon; the predictor only calls the
translator after its StartLoss guard, so that branch is unreachable from
the predictor and we keep the function total by falling back to plain
translation.) -/
def translate (seq : List Char) (first_codon_is_start : Bool) : List Char :=
  if first_codon_is_start then
    if seq.take 3 ∈ START_CODONS then 'M' :: (translateCodons seq).drop 1
    else translateCodons seq
  else translateCodons seq

/-- Result of the Flanking Trimmer: residual cores plus the shared
leading and trailing runs (fields `pre`, `suf`; the missing source calls
them the shared flanking strings). -/
structure TrimRes where
  core_ref : List Char
  core_alt : List Char
  pre : List Char
  suf : List Char
deriving DecidableEq, Repr

/-- Modelled from the spec: `trim_shared_flanking_strings` from the
missing module `varcode/string_helpers.py`.  Strips the longest common
leading run, then the longest common trailing run of the remaining
substrings (so the two regions never overlap), returning the residual
cores and the two shared strings. -/
def trim_shared_flanking_strings (ref alt : List Char) : TrimRes :=
  let p := lcp ref alt
  let r1 := ref.drop p.length
  let a1 := alt.drop p.length
  let s := (lcp r1.reverse a1.reverse).reverse
  ⟨r1.take (r1.length - s.length), a1.take (a1.length - s.length), p, s⟩

/-- Effect Taxonomy: the nine immutable result variants.  The opaque
`variant` and `transcript` provenance tokens carried by every Python
effect object are passed through unmodified by the source and carry no
information, so they are omitted; all data fields are kept. -/
inductive Effect where
  | Silent (aa_pos : Nat) (aa_ref : List Char)
  | Substitution (aa_pos : Nat) (aa_ref : List Char) (aa_alt : List Char)
  | ComplexSubstitution (aa_pos : Nat) (aa_ref : List Char) (aa_alt : List Char)
  | Insertion (aa_pos : Nat) (aa_alt : List Char)
  | Deletion (aa_pos : Nat) (aa_ref : List Char)
  | PrematureStop (aa_pos : Nat) (aa_ref : List Char) (aa_alt : List Char)
  | StartLoss
  | AlternateStartCodon (aa_ref : List Char) (ref_codon : List Char) (alt_codon : List Char)
  | StopLoss (extended_protein_sequence : List Char)
deriving DecidableEq, Repr

/-- Transcript data used by the predictor: full transcript sequence
(with the 5-prime UTR) and the reference protein sequence. -/
structure Transcript where
  sequence : List Char
  protein_sequence : List Char
deriving DecidableEq, Repr

/-- Source `_choose_in_frame_annotation` (renamed): generic in-frame
classification over amino-acid sequences.  `none` models the failing
`assert aa_ref == ""` on the stop-loss path. -/
def choose_in_frame_effect (aa_mutation_start_offset : Nat)
    (aa_ref aa_alt : List Char) (reference_protein_length : Nat) :
    Option Effect :=
  let t := trim_shared_flanking_strings aa_ref aa_alt
  if t.core_ref = [] ∧ t.core_alt = [] then
    some (Effect.Silent aa_mutation_start_offset (t.pre ++ t.suf))
  else
    let off2 := aa_mutation_start_offset + t.pre.length
    if off2 = reference_protein_length then
      if t.core_ref = [] then some (Effect.StopLoss t.core_alt) else none
    else if t.core_alt = [] then
      some (Effect.Deletion off2 t.core_ref)
    else if t.core_ref = [] then
      some (Effect.Insertion off2 t.core_alt)
    else if t.core_ref.length = 1 ∧ t.core_alt.length = 1 then
      some (Effect.Substitution off2 t.core_ref t.core_alt)
    else
      some (Effect.ComplexSubstitution off2 t.core_ref t.core_alt)

/-- Source: `first_ref_codon_index = cds_offset // 3`. -/
def first_ref_codon_index (cds_offset : Nat) : Nat := cds_offset / 3

/-- Source: `offset_in_first_ref_codon = cds_offset % 3`. -/
def offset_in_first_ref_codon (cds_offset : Nat) : Nat := cds_offset % 3

/-- Source: `last_ref_codon_index = (cds_offset + len(ref) - 1) // 3`
(non-empty `ref` branch). -/
def last_ref_codon_index (cds_offset : Nat) (ref : List Char) : Nat :=
  (cds_offset + ref.length - 1) / 3

/-- Source: the six-nucleotide window read for a pure insertion,
`sequence_from_start_codon[first_ref_codon_index*3 : first_ref_codon_index*3 + 6]`. -/
def insertion_window (cds_offset : Nat) (seq : List Char) : List Char :=
  pySlice seq (first_ref_codon_index cds_offset * 3)
    (first_ref_codon_index cds_offset * 3 + 6)

/-- Source: the window spanning all affected reference codons,
`sequence_from_start_codon[first_ref_codon_index*3 : last_ref_codon_index*3 + 3]`. -/
def ref_codons_window (cds_offset : Nat) (ref seq : List Char) : List Char :=
  pySlice seq (first_ref_codon_index cds_offset * 3)
    (last_ref_codon_index cds_offset ref * 3 + 3)

/-- Source: the unmodified tail of the last reference codon, selected by
`(cds_offset + len(ref) - 1) % 3` (last two window nucleotides for 0, the
last one for 1, empty for 2; Python `s[-2:]` and `s[-1:]` are `drop` of
`length - 2` resp. `length - 1`, which also agrees on windows shorter
than the drop amount). -/
def mutant_suffix (cds_offset : Nat) (ref seq : List Char) : List Char :=
  let w := ref_codons_window cds_offset ref seq
  if (cds_offset + ref.length - 1) % 3 = 0 then w.drop (w.length - 2)
  else if (cds_offset + ref.length - 1) % 3 = 1 then w.drop (w.length - 1)
  else []

/-- Source lines 163-215 of `predict_in_frame_coding_effect`: construct
the affected codon range and the mutant codon sequence.  Returns the pair
`(last_ref_codon_index, mutant_codons)`; the two failing `assert`
statements of the non-empty-`ref` branch (`first_ref_codon_index <=
len(transcript.protein_sequence)` and the codon-index ordering) are
modelled as `none`. -/
def buildMutantCodons (ref alt : List Char) (cds_offset : Nat)
    (seq : List Char) (protein_length : Nat) : Option (Nat × List Char) :=
  if ref = [] then
    some (first_ref_codon_index cds_offset + 1,
      (insertion_window cds_offset seq).take (offset_in_first_ref_codon cds_offset + 1)
        ++ alt ++
      (insertion_window cds_offset seq).drop (offset_in_first_ref_codon cds_offset + 1))
  else if first_ref_codon_index cds_offset ≤ protein_length then
    if first_ref_codon_index cds_offset ≤ last_ref_codon_index cds_offset ref then
      some (last_ref_codon_index cds_offset ref,
        (ref_codons_window cds_offset ref seq).take (offset_in_first_ref_codon cds_offset)
          ++ alt ++ mutant_suffix cds_offset ref seq)
    else none
  else none

/-- Source: `STOP_CODONS.intersection(mutant_codons[3*i : 3*i+3] for i in
range(n_mutant_codons))` is non-empty, i.e. some codon slice of the
mutant codon sequence is a stop codon. -/
def containsStop (mc : List Char) : Bool :=
  (List.range (mc.length / 3)).any
    (fun i => decide (pySlice mc (3 * i) (3 * i + 3) ∈ STOP_CODONS))

/-- Source lines 246-291: translation of the mutant window, the
premature-stop check with its shared-leading-run trim and strict
truncation test, and the final call of the generic classifier.  Note the
source passes `first_ref_codon_index` (`first`), not the advanced
`mutation_aa_pos`, to the generic classifier on the fall-through path. -/
def classifyRest (first last : Nat) (mc : List Char) (tr : Transcript) :
    Option Effect :=
  let orig := pySlice tr.protein_sequence first (last + 1)
  let mutSeq := translate mc (first == 0)
  let refLen := tr.protein_sequence.length
  if containsStop mc then
    let n := (lcp orig mutSeq).length
    if (mutSeq.drop n).length < refLen - (first + n) then
      some (Effect.PrematureStop (first + n) (orig.drop n) (mutSeq.drop n))
    else choose_in_frame_effect first (orig.drop n) (mutSeq.drop n) refLen
  else choose_in_frame_effect first orig mutSeq refLen

/-- Source `predict_in_frame_coding_effect`: full decision procedure.
`none` models a raised `AssertionError` (contract-violation fault). -/
def predict_in_frame_coding_effect (ref alt : List Char) (cds_offset : Nat)
    (sequence_from_start_codon : List Char) (tr : Transcript) :
    Option Effect :=
  match buildMutantCodons ref alt cds_offset sequence_from_start_codon
      tr.protein_sequence.length with
  | none => none
  | some (last, mc) =>
    if mc.length % 3 ≠ 0 then none
    else
      let first := first_ref_codon_index cds_offset
      let orig := pySlice tr.protein_sequence first (last + 1)
      if first = 0 then
        if mc.take 3 ∉ START_CODONS then some Effect.StartLoss
        else if mc.length = 3 ∧ ref.length = alt.length then
          some (Effect.AlternateStartCodon orig (tr.sequence.take 3) mc)
        else classifyRest first last mc tr
      else classifyRest first last mc tr

/-- Strict-truncation test of the premature-stop step, as a standalone
predicate: after trimming the longest shared leading residue run between
the original protein subsequence and the translated mutant subsequence
and advancing the mutation position by its length, the mutant residual is
strictly shorter than the reference residues remaining downstream. -/
def strictTruncation (first last : Nat) (mc prot : List Char) : Bool :=
  let orig := pySlice prot first (last + 1)
  let mutSeq := translate mc (first == 0)
  let n := (lcp orig mutSeq).length
  decide ((mutSeq.drop n).length < prot.length - (first + n))

/-- Discriminator: is the returned value a PrematureStop effect? -/
def isPrematureStop : Option Effect → Bool
  | some (Effect.PrematureStop _ _ _) => true
  | _ => false

/-- Coverage condition: the supplied sequence from the start codon is
long enough to contain the whole affected codon window. -/
def coversWindow (ref : List Char) (cds_offset : Nat) (seq : List Char) : Bool :=
  if ref = [] then
    decide (first_ref_codon_index cds_offset * 3 + 6 ≤ seq.length)
  else
    decide (last_ref_codon_index cds_offset ref * 3 + 3 ≤ seq.length)

/-- Lexicographic by code point on character lists, matching Python
string comparison. -/
def charsLt : List Char → List Char → Bool
  | [], [] => false
  | [], _ :: _ => true
  | _ :: _, [] => false
  | a :: as, b :: bs =>
      if a.toNat < b.toNat then true
      else if b.toNat < a.toNat then false
      else charsLt as bs

/-- Insert into a descending-sorted list, keeping it descending. -/
def insertDesc (x : String) : List String → List String
  | [] => [x]
  | y :: ys => if charsLt y.data x.data then x :: y :: ys else y :: insertDesc x ys

/-- Sort descending (Python `sorted(keys, reverse=True)`). -/
def sortDesc : List String → List String
  | [] => []
  | x :: xs => insertDesc x (sortDesc xs)

/-- Source `reference_alias_dict` from `varcode/reference_name.py`, in
source order. -/
def reference_alias_dict : List (String × List String) :=
  [("NCBI36", ["hg18", "B36", "NCBI36"]),
   ("GRCh37", ["hg19", "B37", "NCBI37"]),
   ("GRCh38", ["hg38", "B38", "NCBI38"]),
   ("GRCm37", ["mm9"]),
   ("GRCm38", ["mm10", "GCF_000001635.24", "GCF_000001635.23",
               "GCF_000001635.22", "GCF_000001635.21", "GCF_000001635.20"])]

/-- Alias list for a canonical assembly name (Python dict access). -/
def aliasesOf (name : String) : List String :=
  ((reference_alias_dict.find? (fun p => p.1 == name)).map Prod.snd).getD []

/-- Characters of a string lowered, matching Python `str.lower()` on the
ASCII data involved. -/
def lowerChars (s : String) : List Char := s.data.map Char.toLower

/-- Python substring test `needle in hay` on character lists. -/
def isSubChars (needle : List Char) : List Char → Bool
  | [] => needle.isEmpty
  | c :: t => needle.isPrefixOf (c :: t) || isSubChars needle t

/-- Does the canonical name itself or one of its aliases occur
case-insensitively inside the query string? -/
def nameMatches (query : String) (name : String) : Bool :=
  (name :: aliasesOf name).any
    (fun cand => isSubChars (lowerChars cand) (lowerChars query))

/-- Source `infer_reference_name`: walk canonical names in reverse
alphabetical order; on the first whose candidate list (itself plus its
aliases) has a case-insensitive substring match against the input, return
that canonical name.  The raised `ValueError` on no match is modelled as
`none`. -/
def infer_reference_name (reference_name_or_path : String) : Option String :=
  (sortDesc (reference_alias_dict.map Prod.fst)).findSome?
    (fun name =>
      if nameMatches reference_name_or_path name then some name else none)

/-- Claim-side restatement for the refinement check of the lookup: the
first canonical name, in reverse alphabetical order, that matches. -/
def infer_reference_name_spec (reference_name_or_path : String) : Option String :=
  (sortDesc (reference_alias_dict.map Prod.fst)).find?
    (nameMatches reference_name_or_path)

/-! Helper lemmas. -/

theorem isPrematureStop_choose (off : Nat) (r a : List Char) (len : Nat) :
    isPrematureStop (choose_in_frame_effect off r a len) = false := by
  simp only [choose_in_frame_effect]
  split_ifs <;> rfl

theorem choose_ne_alternate (off : Nat) (r a : List Char) (len : Nat)
    (x rc ac : List Char) :
    choose_in_frame_effect off r a len ≠ some (Effect.AlternateStartCodon x rc ac) := by
  simp only [choose_in_frame_effect]
  split_ifs <;> simp

theorem isPrematureStop_classifyRest (first last : Nat) (mc : List Char)
    (tr : Transcript) :
    isPrematureStop (classifyRest first last mc tr) =
      (containsStop mc && strictTruncation first last mc tr.protein_sequence) := by
  simp only [classifyRest, strictTruncation]
  by_cases hs : containsStop mc = true
  · simp only [hs, if_true, Bool.true_and]
    split_ifs with h
    · rw [decide_eq_true h]; rfl
    · rw [decide_eq_false h]
      exact isPrematureStop_choose _ _ _ _
  · rw [Bool.not_eq_true] at hs
    simp [hs, isPrematureStop_choose]

theorem classifyRest_ne_alternate (first last : Nat) (mc : List Char)
    (tr : Transcript) (x rc ac : List Char) :
    classifyRest first last mc tr ≠ some (Effect.AlternateStartCodon x rc ac) := by
  simp only [classifyRest]
  split_ifs
  · simp
  · exact choose_ne_alternate _ _ _ _ _ _ _
  · exact choose_ne_alternate _ _ _ _ _ _ _

theorem containsStop_of_start_triplet (mc : List Char)
    (h1 : mc.take 3 ∈ START_CODONS) (h2 : mc.length = 3) :
    containsStop mc = false := by
  have ht : mc.take 3 = mc := List.take_of_length_le (le_of_eq h2)
  rw [ht] at h1
  simp only [START_CODONS, List.mem_cons, List.not_mem_nil, or_false] at h1
  rcases h1 with h | h | h <;> subst h <;> rfl

theorem div3_mono_of_pos (cds L : Nat) (h : 1 ≤ L) :
    cds / 3 ≤ (cds + L - 1) / 3 :=
  Nat.div_le_div_right (by omega)

/-! Claim C10. -/

/-- C10: for every `cds_offset` and non-empty `ref`, the first affected
codon index never exceeds the last one, so the codon-index-ordering fault
branch of the predictor is unreachable; given the other precondition
(`first_ref_codon_index <= protein length`) the construction of the
mutant codons therefore never faults. -/
theorem codon_index_ordering_unreachable (cds_offset : Nat)
    (ref alt seq : List Char) (protein_length : Nat) (h : ref ≠ []) :
    first_ref_codon_index cds_offset ≤ last_ref_codon_index cds_offset ref ∧
    (first_ref_codon_index cds_offset ≤ protein_length →
      buildMutantCodons ref alt cds_offset seq protein_length ≠ none) := by
  have hlen : 1 ≤ ref.length := List.length_pos.mpr h
  have hle : first_ref_codon_index cds_offset ≤ last_ref_codon_index cds_offset ref :=
    div3_mono_of_pos cds_offset ref.length hlen
  refine ⟨hle, fun hp => ?_⟩
  unfold buildMutantCodons
  rw [if_neg h, if_pos hp, if_pos hle]
  simp

/-- Witness for C10 at a concrete input. -/
theorem codon_index_ordering_unreachable_witness :
    (['A'] : List Char) ≠ [] ∧
    first_ref_codon_index 4 ≤ last_ref_codon_index 4 ['A'] ∧
    buildMutantCodons ['A'] ['C'] 4 ['A','T','G','G','A','T'] 2 ≠ none :=
  ⟨by decide,
   (codon_index_ordering_unreachable 4 ['A'] ['C'] ['A','T','G','G','A','T'] 2 (by decide)).1,
   (codon_index_ordering_unreachable 4 ['A'] ['C'] ['A','T','G','G','A','T'] 2 (by decide)).2
     (by decide)⟩

/-! Claim C4. -/

/-- C4: in generic classification, when the flanking-trimmed residual
change is non-empty and the mutation position advanced by the shared
leading run equals the full reference protein length, the classifier
returns StopLoss carrying the full trimmed mutant residual; a non-empty
trimmed reference side there is a fault (`none`), not a returned value. -/
theorem stop_loss_at_protein_end (off refLen : Nat) (aaRef aaAlt : List Char)
    (hne : ¬((trim_shared_flanking_strings aaRef aaAlt).core_ref = [] ∧
             (trim_shared_flanking_strings aaRef aaAlt).core_alt = []))
    (hpos : off + (trim_shared_flanking_strings aaRef aaAlt).pre.length = refLen) :
    ((trim_shared_flanking_strings aaRef aaAlt).core_ref = [] →
      choose_in_frame_effect off aaRef aaAlt refLen =
        some (Effect.StopLoss (trim_shared_flanking_strings aaRef aaAlt).core_alt)) ∧
    ((trim_shared_flanking_strings aaRef aaAlt).core_ref ≠ [] →
      choose_in_frame_effect off aaRef aaAlt refLen = none) := by
  constructor <;> intro h <;> simp only [choose_in_frame_effect] <;>
    rw [if_neg hne, if_pos hpos] <;> [rw [if_pos h]; rw [if_neg h]]

/-- Witness for C4 at a concrete input (both directions). -/
theorem stop_loss_at_protein_end_witness :
    ¬((trim_shared_flanking_strings [] ['X']).core_ref = [] ∧
      (trim_shared_flanking_strings [] ['X']).core_alt = []) ∧
    (5 : Nat) + (trim_shared_flanking_strings [] ['X']).pre.length = 5 ∧
    choose_in_frame_effect 5 [] ['X'] 5 = some (Effect.StopLoss ['X']) :=
  ⟨by decide, by decide,
   (stop_loss_at_protein_end 5 5 [] ['X'] (by decide) (by decide)).1 (by decide)⟩

/-! Claim C6. -/

/-- C6 counterexample: on residues D -> D at offset 1 the classifier
returns Silent at the unadjusted offset 1 even though the shared leading
run has length 1, so the claimed position (offset advanced by the shared
run, here 2) is wrong. -/
theorem silent_position_not_advanced :
    choose_in_frame_effect 1 ['D'] ['D'] 3 = some (Effect.Silent 1 ['D']) ∧
    (trim_shared_flanking_strings ['D'] ['D']).pre.length = 1 ∧
    choose_in_frame_effect 1 ['D'] ['D'] 3 ≠
      some (Effect.Silent
        (1 + (trim_shared_flanking_strings ['D'] ['D']).pre.length) ['D']) :=
  ⟨by decide, by decide, by decide⟩

/-- C6 amended: when both flanking-trimmed sides are empty the classifier
returns Silent whose unchanged residues are the shared leading run
followed by the shared trailing run, at the UNADJUSTED mutation start
position (never a zero-length Substitution). -/
theorem silent_unadjusted_position (off refLen : Nat) (aaRef aaAlt : List Char)
    (h1 : (trim_shared_flanking_strings aaRef aaAlt).core_ref = [])
    (h2 : (trim_shared_flanking_strings aaRef aaAlt).core_alt = []) :
    choose_in_frame_effect off aaRef aaAlt refLen =
      some (Effect.Silent off ((trim_shared_flanking_strings aaRef aaAlt).pre ++
        (trim_shared_flanking_strings aaRef aaAlt).suf)) := by
  simp only [choose_in_frame_effect]
  rw [if_pos ⟨h1, h2⟩]

/-- Witness for the amended C6 at a concrete input. -/
theorem silent_unadjusted_position_witness :
    (trim_shared_flanking_strings ['M','K'] ['M','K']).core_ref = [] ∧
    choose_in_frame_effect 0 ['M','K'] ['M','K'] 9 =
      some (Effect.Silent 0 ((trim_shared_flanking_strings ['M','K'] ['M','K']).pre ++
        (trim_shared_flanking_strings ['M','K'] ['M','K']).suf)) :=
  ⟨by decide, silent_unadjusted_position 0 9 ['M','K'] ['M','K'] (by decide) (by decide)⟩

/-! Claim C8. -/

theorem findSome?_if_eq_find? (p : String → Bool) : ∀ l : List String,
    (l.findSome? fun n => if p n then some n else none) = l.find? p
  | [] => rfl
  | x :: xs => by
      by_cases h : p x <;>
        simp [List.findSome?_cons, List.find?, h, findSome?_if_eq_find? p xs]

/-- C8: the assembly-name lookup returns the first canonical name, in
reverse alphabetical order (concretely NCBI36, GRCm38, GRCm37, GRCh38,
GRCh37), whose candidate list (the name and its aliases) has a
case-insensitive substring match against the input, and faults with a
lookup error (`none`) when nothing matches; in particular a path holding
hg19 resolves to GRCh37 and an unknown name fails. -/
theorem infer_reference_name_correct :
    (∀ s, infer_reference_name s = infer_reference_name_spec s) ∧
    sortDesc (reference_alias_dict.map Prod.fst) =
      ["NCBI36", "GRCm38", "GRCm37", "GRCh38", "GRCh37"] ∧
    infer_reference_name "path/to/hg19/file" = some "GRCh37" ∧
    infer_reference_name "unknown_genome" = none := by
  refine ⟨fun s => ?_, by decide, by decide, by decide⟩
  exact findSome?_if_eq_find? (nameMatches s) _

theorem predict_eq_of_build (ref alt : List Char) (cds : Nat) (seq : List Char)
    (tr : Transcript) (last : Nat) (mc : List Char)
    (hb : buildMutantCodons ref alt cds seq tr.protein_sequence.length =
      some (last, mc)) :
    predict_in_frame_coding_effect ref alt cds seq tr =
      (if mc.length % 3 ≠ 0 then none
       else if first_ref_codon_index cds = 0 then
        if mc.take 3 ∉ START_CODONS then some Effect.StartLoss
        else if mc.length = 3 ∧ ref.length = alt.length then
          some (Effect.AlternateStartCodon
            (pySlice tr.protein_sequence (first_ref_codon_index cds) (last + 1))
            (tr.sequence.take 3) mc)
        else classifyRest (first_ref_codon_index cds) last mc tr
       else classifyRest (first_ref_codon_index cds) last mc tr) := by
  unfold predict_in_frame_coding_effect
  rw [hb]

/-! Claim C3. -/

/-- C3: when the edit touches codon zero, a mutant first triplet outside
the start-codon set returns StartLoss immediately; otherwise a
single-codon, length-preserving edit returns AlternateStartCodon with the
affected residues, the first transcript triplet and the new triplet; any
other case falls through to the translation/classification step
(`classifyRest`) without returning here. -/
theorem start_codon_special_case (ref alt : List Char) (cds : Nat)
    (seq : List Char) (tr : Transcript) (last : Nat) (mc : List Char)
    (hb : buildMutantCodons ref alt cds seq tr.protein_sequence.length =
      some (last, mc))
    (hframe : mc.length % 3 = 0)
    (hfirst : first_ref_codon_index cds = 0) :
    (mc.take 3 ∉ START_CODONS →
      predict_in_frame_coding_effect ref alt cds seq tr = some Effect.StartLoss) ∧
    (mc.take 3 ∈ START_CODONS → mc.length = 3 → ref.length = alt.length →
      predict_in_frame_coding_effect ref alt cds seq tr =
        some (Effect.AlternateStartCodon
          (pySlice tr.protein_sequence 0 (last + 1)) (tr.sequence.take 3) mc)) ∧
    (mc.take 3 ∈ START_CODONS → ¬(mc.length = 3 ∧ ref.length = alt.length) →
      predict_in_frame_coding_effect ref alt cds seq tr =
        classifyRest 0 last mc tr) := by
  rw [predict_eq_of_build ref alt cds seq tr last mc hb]
  rw [if_neg (by simp [hframe]), if_pos hfirst, hfirst]
  refine ⟨fun h => ?_, fun h h3 hl => ?_, fun h hno => ?_⟩
  · rw [if_pos h]
  · rw [if_neg (by simp [h]), if_pos ⟨h3, hl⟩]
  · rw [if_neg (by simp [h]), if_neg hno]

/-- Witness for C3 at a concrete input: a first-codon edit ATG to TAA is
StartLoss. -/
theorem start_codon_special_case_witness :
    buildMutantCodons "ATG".data "TAA".data 0 "ATGAAATAG".data
        (Transcript.mk "ATGAAATAG".data "MK".data).protein_sequence.length =
      some (0, "TAA".data) ∧
    predict_in_frame_coding_effect "ATG".data "TAA".data 0 "ATGAAATAG".data
        (Transcript.mk "ATGAAATAG".data "MK".data) = some Effect.StartLoss :=
  ⟨by decide,
   (start_codon_special_case "ATG".data "TAA".data 0 "ATGAAATAG".data
      (Transcript.mk "ATGAAATAG".data "MK".data) 0 "TAA".data
      (by decide) (by decide) (by decide)).1 (by decide)⟩

/-! Claim C9. -/

/-- C9 counterexample: a run returning AlternateStartCodon on a
transcript whose 5-prime UTR is the non-empty string ATG; the carried
`ref_codon` still coincides with the first three nucleotides of the
sequence from the start codon, refuting that the two coincide only when
the 5-prime UTR is empty. -/
theorem alternate_start_coincides_with_nonempty_utr :
    predict_in_frame_coding_effect "ATG".data "TTG".data 0 "ATGAAATAA".data
        (Transcript.mk ("ATG".data ++ "ATGAAATAA".data) "MK".data) =
      some (Effect.AlternateStartCodon ['M'] "ATG".data "TTG".data) ∧
    ("ATG".data ++ "ATGAAATAA".data) ≠ "ATGAAATAA".data ∧
    ("ATG".data : List Char) ≠ [] ∧
    ("ATG".data : List Char) = List.take 3 "ATGAAATAA".data :=
  ⟨by decide, by decide, by decide, by decide⟩

/-- C9 amended: whenever the predictor returns AlternateStartCodon, the
carried `ref_codon` equals the first three nucleotides of the FULL
transcript sequence (`transcript.sequence[:3]`), not of the sequence from
the start codon; the two coincide whenever those two sequences share
their first three nucleotides — which an empty 5-prime UTR implies, but a
non-empty UTR does not preclude. -/
theorem alternate_start_ref_codon_from_transcript_sequence
    (ref alt : List Char) (cds : Nat) (seq : List Char) (tr : Transcript)
    (x rc ac : List Char)
    (h : predict_in_frame_coding_effect ref alt cds seq tr =
      some (Effect.AlternateStartCodon x rc ac)) :
    rc = tr.sequence.take 3 := by
  rcases hb : buildMutantCodons ref alt cds seq tr.protein_sequence.length with
    _ | ⟨last, mc⟩
  · unfold predict_in_frame_coding_effect at h
    rw [hb] at h
    exact absurd h (by simp)
  · rw [predict_eq_of_build ref alt cds seq tr last mc hb] at h
    split_ifs at h
    all_goals
      first
      | (simp only [Option.some.injEq, Effect.AlternateStartCodon.injEq] at h
         exact h.2.1.symm)
      | exact absurd h (by simp)
      | exact absurd h (classifyRest_ne_alternate _ _ _ _ _ _ _)

/-- Witness for the amended C9 at a concrete input. -/
theorem alternate_start_ref_codon_witness :
    predict_in_frame_coding_effect "ATG".data "TTG".data 0 "ATGAAATAA".data
        (Transcript.mk ("ATG".data ++ "ATGAAATAA".data) "MK".data) =
      some (Effect.AlternateStartCodon ['M'] "ATG".data "TTG".data) ∧
    ("ATG".data : List Char) =
      (Transcript.mk ("ATG".data ++ "ATGAAATAA".data) "MK".data).sequence.take 3 :=
  ⟨by decide,
   alternate_start_ref_codon_from_transcript_sequence "ATG".data "TTG".data 0
     "ATGAAATAA".data (Transcript.mk ("ATG".data ++ "ATGAAATAA".data) "MK".data)
     ['M'] "ATG".data "TTG".data (by decide)⟩

/-! Claim C1. -/

/-- C1 counterexample: at a first-codon edit ATG to TAA the claimed
premature-stop condition holds (the mutant codons contain a stop and the
strict-truncation test passes), yet the predictor returns StartLoss, not
PrematureStop — the claimed equivalence fails for inputs resolved by the
start-codon special case. -/
theorem premature_stop_iff_fails_on_start_loss :
    predict_in_frame_coding_effect "ATG".data "TAA".data 0 "ATGAAATAG".data
        (Transcript.mk "ATGAAATAG".data "MK".data) = some Effect.StartLoss ∧
    buildMutantCodons "ATG".data "TAA".data 0 "ATGAAATAG".data 2 =
      some (0, "TAA".data) ∧
    containsStop "TAA".data = true ∧
    strictTruncation 0 0 "TAA".data "MK".data = true ∧
    isPrematureStop (predict_in_frame_coding_effect "ATG".data "TAA".data 0
      "ATGAAATAG".data (Transcript.mk "ATGAAATAG".data "MK".data)) = false :=
  ⟨by decide, by decide, by decide, by decide, by decide⟩

/-- C1 amended: for every input on which the predictor does not fault and
the start-codon special case does not return StartLoss (the mutant first
triplet is a valid start codon whenever the edit touches codon zero), a
PrematureStop result is returned exactly when some codon of the mutant
codon sequence is a stop codon AND the strict-truncation test holds:
after trimming the longest shared leading residue run between the
original protein subsequence and the translated mutant subsequence and
advancing the mutation position by its length, the mutant residual is
strictly shorter than the reference residues remaining downstream.  In
particular a mutant that merely recreates the reference stop (no net
truncation) is never classified PrematureStop. -/
theorem premature_stop_iff (ref alt : List Char) (cds : Nat) (seq : List Char)
    (tr : Transcript) (last : Nat) (mc : List Char)
    (hb : buildMutantCodons ref alt cds seq tr.protein_sequence.length =
      some (last, mc))
    (hframe : mc.length % 3 = 0)
    (hstart : first_ref_codon_index cds = 0 → mc.take 3 ∈ START_CODONS) :
    isPrematureStop (predict_in_frame_coding_effect ref alt cds seq tr) =
      (containsStop mc &&
        strictTruncation (first_ref_codon_index cds) last mc tr.protein_sequence) := by
  rw [predict_eq_of_build ref alt cds seq tr last mc hb]
  rw [if_neg (by simp [hframe])]
  by_cases hf : first_ref_codon_index cds = 0
  · rw [if_pos hf, if_neg (by simp [hstart hf])]
    by_cases ha : mc.length = 3 ∧ ref.length = alt.length
    · rw [if_pos ha]
      have hcs : containsStop mc = false :=
        containsStop_of_start_triplet mc (hstart hf) ha.1
      simp [isPrematureStop, hcs]
    · rw [if_neg ha]
      exact isPrematureStop_classifyRest _ last mc tr
  · rw [if_neg hf]
    exact isPrematureStop_classifyRest _ last mc tr

/-- Witness for the amended C1 at a concrete truncating-stop input. -/
theorem premature_stop_iff_witness :
    buildMutantCodons "AAAACTTAG".data "AAATAG".data 3 "ATGAAAACTTAG".data
        (Transcript.mk "ATGAAAACTTAG".data "MKT".data).protein_sequence.length =
      some (3, "AAATAG".data) ∧
    isPrematureStop (predict_in_frame_coding_effect "AAAACTTAG".data "AAATAG".data 3
        "ATGAAAACTTAG".data (Transcript.mk "ATGAAAACTTAG".data "MKT".data)) =
      (containsStop "AAATAG".data &&
        strictTruncation (first_ref_codon_index 3) 3 "AAATAG".data
          (Transcript.mk "ATGAAAACTTAG".data "MKT".data).protein_sequence) :=
  ⟨by decide,
   premature_stop_iff "AAAACTTAG".data "AAATAG".data 3 "ATGAAAACTTAG".data
     (Transcript.mk "ATGAAAACTTAG".data "MKT".data) 3 "AAATAG".data
     (by decide) (by decide) (by decide)⟩

/-! Claim C7. -/

theorem ref_codons_window_length (cds : Nat) (ref seq : List Char)
    (hcov : last_ref_codon_index cds ref * 3 + 3 ≤ seq.length) :
    (ref_codons_window cds ref seq).length =
      last_ref_codon_index cds ref * 3 + 3 - first_ref_codon_index cds * 3 := by
  simp only [ref_codons_window, pySlice, List.length_take, List.length_drop]
  omega

theorem mutant_suffix_length (cds : Nat) (ref seq : List Char)
    (hcov : last_ref_codon_index cds ref * 3 + 3 ≤ seq.length)
    (hfl : first_ref_codon_index cds ≤ last_ref_codon_index cds ref) :
    (mutant_suffix cds ref seq).length = 2 - (cds + ref.length - 1) % 3 := by
  have hw := ref_codons_window_length cds ref seq hcov
  unfold mutant_suffix
  split_ifs with r0 r1
  · rw [List.length_drop, hw]
    simp only [first_ref_codon_index, last_ref_codon_index] at hfl hw ⊢
    omega
  · rw [List.length_drop, hw]
    simp only [first_ref_codon_index, last_ref_codon_index] at hfl hw ⊢
    omega
  · simp only [List.length_nil]
    omega

theorem build_length_mod (ref alt : List Char) (cds : Nat) (seq : List Char)
    (protLen last : Nat) (mc : List Char)
    (hcov : coversWindow ref cds seq = true)
    (hb : buildMutantCodons ref alt cds seq protLen = some (last, mc)) :
    (mc.length + ref.length) % 3 = alt.length % 3 := by
  unfold buildMutantCodons at hb
  unfold coversWindow at hcov
  split_ifs at hb with h1 h2 h3
  · rw [if_pos h1, decide_eq_true_eq] at hcov
    simp only [Option.some.injEq, Prod.mk.injEq] at hb
    obtain ⟨-, hmc⟩ := hb
    subst hmc
    subst h1
    simp only [insertion_window, pySlice, first_ref_codon_index,
      offset_in_first_ref_codon, List.length_append, List.length_take,
      List.length_drop, List.length_nil] at hcov ⊢
    omega
  · rw [if_neg h1, decide_eq_true_eq] at hcov
    simp only [Option.some.injEq, Prod.mk.injEq] at hb
    obtain ⟨-, hmc⟩ := hb
    subst hmc
    have hlen : 1 ≤ ref.length := List.length_pos.mpr h1
    have hw := ref_codons_window_length cds ref seq hcov
    have hsuf := mutant_suffix_length cds ref seq hcov h3
    simp only [List.length_append, List.length_take, hw, hsuf,
      first_ref_codon_index, last_ref_codon_index, offset_in_first_ref_codon] at h3 ⊢
    omega

/-- C7 counterexample: on a degenerate input whose sequence does not
cover the whole affected codon window, a frame-shifting pure insertion of
two nucleotides slips past the frame check (the truncated window makes
the constructed codon string a multiple of three) and the predictor
returns a Taxonomy instance (StopLoss) instead of faulting. -/
theorem frameshift_returns_taxonomy_on_short_window :
    ("TT".data.length : Nat) % 3 ≠ ([] : List Char).length % 3 ∧
    predict_in_frame_coding_effect [] "TT".data 3 "ATGA".data
      (Transcript.mk "ATGA".data "M".data) = some (Effect.StopLoss ['I']) :=
  ⟨by decide, by decide⟩

/-- C7 amended: provided the supplied sequence from the start codon
covers the whole affected codon window, the constructed mutant codon
sequence has length a multiple of three exactly when the edit preserves
frame (`len(alt) - len(ref)` a multiple of three), so for in-frame edits
the frame-check fault branch is unreachable, and for frame-shifting edits
the predictor faults (`none`) rather than returning a Taxonomy
instance. -/
theorem mutant_codons_frame_invariant (ref alt : List Char) (cds : Nat)
    (seq : List Char) (tr : Transcript)
    (hcov : coversWindow ref cds seq = true) :
    (alt.length % 3 = ref.length % 3 →
      ∀ last : Nat, ∀ mc : List Char,
        buildMutantCodons ref alt cds seq tr.protein_sequence.length =
          some (last, mc) →
        mc.length % 3 = 0) ∧
    (alt.length % 3 ≠ ref.length % 3 →
      predict_in_frame_coding_effect ref alt cds seq tr = none) := by
  constructor
  · intro hin last mc hb
    have := build_length_mod ref alt cds seq tr.protein_sequence.length last mc hcov hb
    omega
  · intro hshift
    rcases hb : buildMutantCodons ref alt cds seq tr.protein_sequence.length with
      _ | ⟨last, mc⟩
    · unfold predict_in_frame_coding_effect
      rw [hb]
    · have hmod := build_length_mod ref alt cds seq tr.protein_sequence.length
        last mc hcov hb
      have hne : mc.length % 3 ≠ 0 := by omega
      rw [predict_eq_of_build ref alt cds seq tr last mc hb, if_pos hne]

/-- Witness for the amended C7 at concrete inputs (both directions). -/
theorem mutant_codons_frame_invariant_witness :
    coversWindow "GAT".data 3 "ATGGATCCCTAA".data = true ∧
    (buildMutantCodons "GAT".data "GAA".data 3 "ATGGATCCCTAA".data
        (Transcript.mk "ATGGATCCCTAA".data "MDP".data).protein_sequence.length =
      some (1, "GAA".data) →
      ("GAA".data : List Char).length % 3 = 0) ∧
    predict_in_frame_coding_effect "GAT".data "GA".data 3 "ATGGATCCCTAA".data
      (Transcript.mk "ATGGATCCCTAA".data "MDP".data) = none :=
  ⟨by decide,
   fun hb =>
     (mutant_codons_frame_invariant "GAT".data "GAA".data 3 "ATGGATCCCTAA".data
       (Transcript.mk "ATGGATCCCTAA".data "MDP".data) (by decide)).1
       (by decide) 1 "GAA".data hb,
   (mutant_codons_frame_invariant "GAT".data "GA".data 3 "ATGGATCCCTAA".data
       (Transcript.mk "ATGGATCCCTAA".data "MDP".data) (by decide)).2
     (by decide)⟩

/-! Claim C2. -/

/-- C2: construction of the mutant codon sequence.  For a pure insertion
(empty `ref`) a six-nucleotide window is read starting at
`first_codon_index*3`, the last codon index is `first_codon_index + 1`,
and the mutant codons are the window nucleotides up to and including the
in-codon insertion point, then `alt`, then the remaining window
nucleotides.  For non-empty `ref` (given the source's precondition that
the first codon index does not exceed the protein length) the window
spans codons `first..last` with `last = (cds_offset + len(ref) - 1) // 3`,
and the mutant codons are the first `offset_in_first_codon` window
nucleotides, then `alt`, then the last two window nucleotides when
`(cds_offset + len(ref) - 1) % 3` is 0, the last one when it is 1, and
nothing when it is 2. -/
theorem mutant_codons_construction (ref alt : List Char) (cds : Nat)
    (seq : List Char) (protLen : Nat) :
    (ref = [] →
      buildMutantCodons ref alt cds seq protLen =
        some (cds / 3 + 1,
          (pySlice seq (cds / 3 * 3) (cds / 3 * 3 + 6)).take (cds % 3 + 1)
            ++ alt ++
          (pySlice seq (cds / 3 * 3) (cds / 3 * 3 + 6)).drop (cds % 3 + 1))) ∧
    (ref ≠ [] → cds / 3 ≤ protLen →
      buildMutantCodons ref alt cds seq protLen =
        some ((cds + ref.length - 1) / 3,
          (pySlice seq (cds / 3 * 3) ((cds + ref.length - 1) / 3 * 3 + 3)).take (cds % 3)
            ++ alt ++
          (if (cds + ref.length - 1) % 3 = 0 then
            (pySlice seq (cds / 3 * 3) ((cds + ref.length - 1) / 3 * 3 + 3)).drop
              ((pySlice seq (cds / 3 * 3) ((cds + ref.length - 1) / 3 * 3 + 3)).length - 2)
           else if (cds + ref.length - 1) % 3 = 1 then
            (pySlice seq (cds / 3 * 3) ((cds + ref.length - 1) / 3 * 3 + 3)).drop
              ((pySlice seq (cds / 3 * 3) ((cds + ref.length - 1) / 3 * 3 + 3)).length - 1)
           else []))) := by
  constructor
  · intro h
    subst h
    simp only [buildMutantCodons, insertion_window, first_ref_codon_index,
      offset_in_first_ref_codon, if_pos rfl, if_true]
  · intro h hp
    have hfl : cds / 3 ≤ (cds + ref.length - 1) / 3 :=
      div3_mono_of_pos cds ref.length (List.length_pos.mpr h)
    simp only [buildMutantCodons, ref_codons_window, mutant_suffix,
      first_ref_codon_index, last_ref_codon_index, offset_in_first_ref_codon,
      if_neg h, if_pos hp, if_pos hfl]

/-- Witness for C2 at concrete inputs (both branches). -/
theorem mutant_codons_construction_witness :
    buildMutantCodons [] "AAA".data 4 "ATGGATCCCTAA".data 3 =
      some (4 / 3 + 1,
        (pySlice "ATGGATCCCTAA".data (4 / 3 * 3) (4 / 3 * 3 + 6)).take (4 % 3 + 1)
          ++ "AAA".data ++
        (pySlice "ATGGATCCCTAA".data (4 / 3 * 3) (4 / 3 * 3 + 6)).drop (4 % 3 + 1)) ∧
    (("GAT".data : List Char) ≠ [] ∧ 3 / 3 ≤ 3) ∧
    buildMutantCodons "GAT".data "GAA".data 3 "ATGGATCCCTAA".data 3 =
      some ((3 + ("GAT".data : List Char).length - 1) / 3,
        (pySlice "ATGGATCCCTAA".data (3 / 3 * 3)
          ((3 + ("GAT".data : List Char).length - 1) / 3 * 3 + 3)).take (3 % 3)
          ++ "GAA".data ++
        (if (3 + ("GAT".data : List Char).length - 1) % 3 = 0 then
          (pySlice "ATGGATCCCTAA".data (3 / 3 * 3)
            ((3 + ("GAT".data : List Char).length - 1) / 3 * 3 + 3)).drop
            ((pySlice "ATGGATCCCTAA".data (3 / 3 * 3)
              ((3 + ("GAT".data : List Char).length - 1) / 3 * 3 + 3)).length - 2)
         else if (3 + ("GAT".data : List Char).length - 1) % 3 = 1 then
          (pySlice "ATGGATCCCTAA".data (3 / 3 * 3)
            ((3 + ("GAT".data : List Char).length - 1) / 3 * 3 + 3)).drop
            ((pySlice "ATGGATCCCTAA".data (3 / 3 * 3)
              ((3 + ("GAT".data : List Char).length - 1) / 3 * 3 + 3)).length - 1)
         else [])) :=
  ⟨(mutant_codons_construction [] "AAA".data 4 "ATGGATCCCTAA".data 3).1 rfl,
   ⟨by decide, by decide⟩,
   (mutant_codons_construction "GAT".data "GAA".data 3 "ATGGATCCCTAA".data 3).2
     (by decide) (by decide)⟩

/-! Claim C5. -/

/-- C5 (code-bug evidence): on the edit AAAACTTAG to AAAGGGTAG at
`cds_offset = 3` over coding sequence ATG AAA ACT TAG (protein MKT), the
mutant codons AAA GGG TAG contain a stop, the shared leading residue run
found by the premature-stop step has length 1, and the strict-truncation
test fails, so classification falls through — but the source passes the
untrimmed `first_ref_codon_index` (1) together with the already-trimmed
residue sequences to the generic classifier, which therefore reports the
substitution T to G at amino-acid position 1, although the first changed
residue is at position 2 (`first_ref_codon_index` plus the shared run),
contradicting the classifier's documented parameter contract. -/
theorem generic_position_ignores_stop_trim_eval :
    predict_in_frame_coding_effect "AAAACTTAG".data "AAAGGGTAG".data 3
        "ATGAAAACTTAG".data (Transcript.mk "ATGAAAACTTAG".data "MKT".data) =
      some (Effect.Substitution 1 ['T'] ['G']) ∧
    containsStop "AAAGGGTAG".data = true ∧
    strictTruncation (first_ref_codon_index 3) 3 "AAAGGGTAG".data "MKT".data = false ∧
    (lcp (pySlice "MKT".data (first_ref_codon_index 3) 4)
        (translate "AAAGGGTAG".data false)).length = 1 ∧
    first_ref_codon_index 3 +
      (lcp (pySlice "MKT".data (first_ref_codon_index 3) 4)
        (translate "AAAGGGTAG".data false)).length = 2 :=
  ⟨by decide, by decide, by decide, by decide, by decide⟩

end Varcode
